import Mathlib

/-!
Verification of the scene-editor editing-session core of
`src/newIDE/app/src/SceneEditor/InstancesFullEditor/index.js`
(the InstancesFullEditor React component) against its specification.

The component orchestrates edits on an externally-owned scene graph
(`this.props.initialInstances`), a selection model
(`this.instancesSelection`), an undo/redo history value
(`this.state.history`, manipulated through the History module) and
view-only ui settings (`this.state.uiSettings`).

The History module, the InstancesSelection class and the scene-graph
container are collaborators whose sources are not part of the studied
files; they are modelled from the specification (sections 4.1, 4.2 and 6)
and so marked.  Every handler of the component itself is translated
directly from `index.js`.
-/

set_option autoImplicit false

/-- An instance placed in the scene, as described by the spec data model:
`objectName`, position `x`/`y`, integer `zOrder` and `layerName`.  The
`id` field models JavaScript object identity of the instance reference
(the container hands out references; selection holds references). -/
structure Instance where
  id : Nat
  objectName : String
  x : Int
  y : Int
  zOrder : Int
  layerName : String
deriving Repr, DecidableEq

/-- Modelled from the spec: the external mutable scene-graph container
(`this.props.initialInstances`, the SceneGraph contract of section 6).
`instances` is the content, `nextId` the source of fresh identities for
newly inserted instances. -/
structure InstancesContainer where
  instances : List Instance
  nextId : Nat
deriving Repr, DecidableEq

/-- Modelled from the spec: `insertInstance() → Instance` of the
SceneGraph contract — "new, default-valued".  The new instance is
default-valued (empty names, zero position and z-order) and gets a fresh
identity; the pair (reference, updated container) is returned. -/
def insertNewInitialInstance (c : InstancesContainer) : Instance × InstancesContainer :=
  let inst : Instance :=
    { id := c.nextId, objectName := "", x := 0, y := 0, zOrder := 0, layerName := "" }
  (inst, { instances := c.instances ++ [inst], nextId := c.nextId + 1 })

/-- Modelled from the spec: writing through the graph's accessor API to
the instance identified by the reference (the setters
`setObjectName` / `setX` / `setY` / `setZOrder` mutate the referenced
instance in place; here the container entry with the same identity is
replaced by the updated record). -/
def setInstance (c : InstancesContainer) (inst : Instance) : InstancesContainer :=
  { c with instances := c.instances.map (fun j => if j.id = inst.id then inst else j) }

/-- Modelled from the spec: `removeInstance(Instance)` of the SceneGraph
contract — removes the referenced instance from the container. -/
def removeInstance (c : InstancesContainer) (inst : Instance) : InstancesContainer :=
  { c with instances := c.instances.filter (fun j => j.id != inst.id) }

/-- Modelled from the spec: `removeInstancesOnLayer(layerName)` of the
SceneGraph contract (called `removeAllInstancesOnLayer` at its call site
in `index.js`) — removes every instance whose layer is `layerName`. -/
def removeAllInstancesOnLayer (c : InstancesContainer) (layerName : String) : InstancesContainer :=
  { c with instances := c.instances.filter (fun j => j.layerName != layerName) }

/-- Modelled from the spec: `moveInstancesToLayer(fromLayer, toLayer)` of
the SceneGraph contract — reassigns every instance on `fromLayer` to
`toLayer`. -/
def moveInstancesToLayer (c : InstancesContainer) (fromLayer toLayer : String) : InstancesContainer :=
  { c with instances :=
      c.instances.map fun j =>
        if j.layerName = fromLayer then { j with layerName := toLayer } else j }

/-- Modelled from the spec: `gd.HighestZOrderFinder` applied through
`iterateOverInstances` — "traversal used to compute maximum z-order".
The fold starts at 0; at its only call site in `index.js` the traversal
runs after the new instance (default z-order 0) was inserted, so the
visited list is non-empty and contains 0, and the result does not depend
on this initial value. -/
def getHighestZOrder (c : InstancesContainer) : Int :=
  c.instances.foldl (fun acc j => max acc j.zOrder) 0

/-- Looks up the instance with the given identity in the container. -/
def findInstance (c : InstancesContainer) (i : Nat) : Option Instance :=
  c.instances.find? (fun j => j.id == i)

/-- A history snapshot (HistoryEntry): an immutable serialized capture of
the full scene-graph content, per the spec data model. -/
abbrev Snapshot := List Instance

/-- Modelled from the spec: `snapshot()` of the SceneGraph contract —
full-state capture of the container's content. -/
def snapshotContainer (c : InstancesContainer) : Snapshot :=
  c.instances

/-- Modelled from the spec: `restore(HistoryEntry)` of the SceneGraph
contract — fully replaces the container's instance content (not a
merge). -/
def restoreContainer (c : InstancesContainer) (s : Snapshot) : InstancesContainer :=
  { c with instances := s }

/-- HistoryState of the spec data model: past entries (oldest first),
the present snapshot, and future (redo) entries. -/
structure HistoryState where
  past : List Snapshot
  present : Snapshot
  future : List Snapshot
deriving Repr, DecidableEq

/-- Modelled from the spec: the fixed maximum depth at which `past` is
capped.  The spec states the cap exists but not its numeric value; 30 is
used as the concrete bound. -/
def maxHistoryDepth : Nat := 30

/-- Modelled from the spec: `getHistoryInitialState` of the History
module — snapshot of the current graph as the sole present, with empty
past and future. -/
def getHistoryInitialState (c : InstancesContainer) : HistoryState :=
  { past := [], present := snapshotContainer c, future := [] }

/-- Modelled from the spec: `saveToHistory` (the commit operation of the
History module, section 4.2) — pushes the previous present onto past,
takes a fresh snapshot as the new present, clears future, and evicts the
oldest past entries beyond the fixed cap. -/
def saveToHistory (h : HistoryState) (c : InstancesContainer) : HistoryState :=
  let p := h.past ++ [h.present]
  { past := if maxHistoryDepth < p.length then p.drop (p.length - maxHistoryDepth) else p,
    present := snapshotContainer c,
    future := [] }

/-- Modelled from the spec: `undo` of the History module (section 4.2) —
no-op when past is empty; otherwise pops the most recent past entry,
pushes the current present onto the front of future, restores the
container from the popped entry, which becomes the new present. -/
def historyUndo (h : HistoryState) (c : InstancesContainer) :
    HistoryState × InstancesContainer :=
  match h.past.getLast? with
  | none => (h, c)
  | some e =>
    ({ past := h.past.dropLast, present := e, future := h.present :: h.future },
     restoreContainer c e)

/-- Modelled from the spec: `redo` of the History module (section 4.2) —
symmetric to `undo`: no-op when future is empty; otherwise pops the
first future entry, pushes the current present onto past, restores the
container from it, and it becomes the new present. -/
def historyRedo (h : HistoryState) (c : InstancesContainer) :
    HistoryState × InstancesContainer :=
  match h.future with
  | [] => (h, c)
  | e :: rest =>
    ({ past := h.past ++ [h.present], present := e, future := rest },
     restoreContainer c e)

/-- Modelled from the spec: `canUndo(history)` — past non-empty. -/
def canUndo (h : HistoryState) : Bool :=
  !h.past.isEmpty

/-- Modelled from the spec: `canRedo(history)` — future non-empty. -/
def canRedo (h : HistoryState) : Bool :=
  !h.future.isEmpty

/-- Ui settings held in `this.state.uiSettings`: the view-only toggles
touched by the component (`grid`, `snap`, `windowMask`). -/
structure UiSettings where
  grid : Bool
  snap : Bool
  windowMask : Bool
deriving Repr, DecidableEq

/-- A partial ui-settings object, as passed to `setUiSettings` and merged
by object spread into the current settings: an absent field leaves the
current value. -/
structure UiSettingsPatch where
  grid : Option Bool
  snap : Option Bool
  windowMask : Option Bool
deriving Repr, DecidableEq

/-- The object-spread merge `{ ...this.state.uiSettings, ...uiSettings }`
performed by `setUiSettings` in `index.js`. -/
def applyUiSettingsPatch (u : UiSettings) (p : UiSettingsPatch) : UiSettings :=
  { grid := p.grid.getD u.grid,
    snap := p.snap.getD u.snap,
    windowMask := p.windowMask.getD u.windowMask }

/-- The editing-session state of the InstancesFullEditor component:
`selectedObjectName` and `uiSettings` and `history` from
`this.state`, the selection model `this.instancesSelection`
(its `getSelectedInstances()` sequence; modelled from spec section 4.1:
an ordered set of instance references), and the externally-owned scene
graph `this.props.initialInstances` which the handlers mutate in
place. -/
structure EditorState where
  selectedObjectName : Option String
  uiSettings : UiSettings
  history : HistoryState
  instancesSelection : List Instance
  instances : InstancesContainer
deriving Repr, DecidableEq

/-- The `toggleWindowMask` handler of `index.js`: flips
`uiSettings.windowMask`, touching nothing else. -/
def toggleWindowMask (st : EditorState) : EditorState :=
  { st with uiSettings := { st.uiSettings with windowMask := !st.uiSettings.windowMask } }

/-- The `toggleGrid` handler of `index.js`: sets both `uiSettings.grid`
and `uiSettings.snap` to the negation of the previous `grid` value. -/
def toggleGrid (st : EditorState) : EditorState :=
  { st with uiSettings :=
      { st.uiSettings with grid := !st.uiSettings.grid, snap := !st.uiSettings.grid } }

/-- The `setUiSettings` handler of `index.js`: merges the given partial
settings into `uiSettings` by object spread. -/
def setUiSettings (st : EditorState) (p : UiSettingsPatch) : EditorState :=
  { st with uiSettings := applyUiSettingsPatch st.uiSettings p }

/-- The `undo` handler of `index.js`: replaces `this.state.history` with
`undo(this.state.history, this.props.initialInstances)` (which restores
the container), then forces a remount of the renderers and refreshes the
toolbar — both render-side effects with no editing-session state.  Note
that the handler does not touch `this.instancesSelection`. -/
def editorUndo (st : EditorState) : EditorState :=
  let hc := historyUndo st.history st.instances
  { st with history := hc.1, instances := hc.2 }

/-- The `redo` handler of `index.js`: replaces `this.state.history` with
`redo(this.state.history, this.props.initialInstances)`, then forces a
renderer remount and refreshes the toolbar.  Like `undo`, it does not
touch `this.instancesSelection`. -/
def editorRedo (st : EditorState) : EditorState :=
  let hc := historyRedo st.history st.instances
  { st with history := hc.1, instances := hc.2 }

/-- The effective object name computed on line 184 of `index.js`:
`objectName || this.state.selectedObjectName`, with JavaScript
falsiness — the empty string falls through to the selected object name
(itself possibly null, modelled by `Option`). -/
def effectiveObjectName (objectName : String) (selectedObjectName : Option String) : String :=
  if objectName = "" then selectedObjectName.getD "" else objectName

/-- The `_onAddInstance(x, y, objectName)` handler of `index.js`:
returns early when the effective object name is falsy; otherwise inserts
a new instance, sets its object name and position, computes the highest
z-order by iterating over the container (which already holds the new
instance), sets the new instance's z-order to that plus one, clears the
selected-object-to-place state, and commits `saveToHistory`. -/
def onAddInstance (st : EditorState) (x y : Int) (objectName : String) : EditorState :=
  let newInstanceObjectName := effectiveObjectName objectName st.selectedObjectName
  if newInstanceObjectName = "" then st
  else
    let r := insertNewInitialInstance st.instances
    let inst := { r.1 with objectName := newInstanceObjectName, x := x, y := y }
    let c := setInstance r.2 inst
    let inst := { inst with zOrder := getHighestZOrder c + 1 }
    let c := setInstance c inst
    { st with
      selectedObjectName := none,
      instances := c,
      history := saveToHistory st.history c }

/-- The `deleteSelection` handler of `index.js`: removes each instance of
`getSelectedInstances()` from the container, clears the selection (and
the highlighted instance, a render-side effect), and commits
`saveToHistory` — unconditionally, with no emptiness check. -/
def deleteSelection (st : EditorState) : EditorState :=
  let selectedInstances := st.instancesSelection
  let c := selectedInstances.foldl (fun c inst => removeInstance c inst) st.instances
  { st with
    instancesSelection := [],
    instances := c,
    history := saveToHistory st.history c }

/-- The `onCloseLayerRemoveDialog` callback installed by `_onRemoveLayer`
in `index.js`, invoked with the dialog's outcome: when `doRemove` holds,
either removes every instance on the removed layer (`newLayer` null) or
moves them to `newLayer`; then forces a renderer remount and refreshes
the toolbar (render-side effects).  No call into the History module is
made on this path. -/
def onCloseLayerRemoveDialog (st : EditorState) (layerName : String)
    (doRemove : Bool) (newLayer : Option String) : EditorState :=
  if doRemove then
    match newLayer with
    | none => { st with instances := removeAllInstancesOnLayer st.instances layerName }
    | some l => { st with instances := moveInstancesToLayer st.instances layerName l }
  else st

/-- The `_onInstancesModified` handler of `index.js`: it only calls
`this.forceUpdate()` (a re-render with no state change); saving to
history is left as a commented-out question in the source
(`//Save for redo with debounce (and cancel on unmount)?????`), so the
editing-session state is returned unchanged. -/
def onInstancesModified (st : EditorState) : EditorState :=
  st

/-! ## Concrete fixtures used by witnesses and counterexamples -/

/-- Sample instance A of the spec scenario (z = 1, layer "L1"). -/
def instA : Instance :=
  { id := 0, objectName := "A", x := 1, y := 2, zOrder := 1, layerName := "L1" }

/-- Sample instance B of the spec scenario (z = 3, layer "L1"). -/
def instB : Instance :=
  { id := 1, objectName := "B", x := 3, y := 4, zOrder := 3, layerName := "L1" }

/-- Sample instance with a negative z-order. -/
def instNeg : Instance :=
  { id := 0, objectName := "N", x := 0, y := 0, zOrder := -2, layerName := "L1" }

/-- Default ui settings for the fixtures. -/
def sampleUi : UiSettings := { grid := false, snap := false, windowMask := false }

/-- A session holding instance A, with A selected, one undoable past entry
and one redoable future entry. -/
def stSel : EditorState :=
  { selectedObjectName := none,
    uiSettings := sampleUi,
    history := { past := [[]], present := [instA], future := [[instA, instB]] },
    instancesSelection := [instA],
    instances := { instances := [instA], nextId := 2 } }

/-- A session holding instance A with nothing selected and empty history. -/
def stEmptySel : EditorState :=
  { selectedObjectName := none,
    uiSettings := sampleUi,
    history := { past := [], present := [instA], future := [[instB]] },
    instancesSelection := [],
    instances := { instances := [instA], nextId := 2 } }

/-- A session holding instances A and B (both on layer "L1"), A selected. -/
def stLayer : EditorState :=
  { selectedObjectName := none,
    uiSettings := sampleUi,
    history := { past := [], present := [instA, instB], future := [] },
    instancesSelection := [instA],
    instances := { instances := [instA, instB], nextId := 2 } }

/-- A session whose only instance has a negative z-order and whose
selected object to place is "Hero". -/
def stNeg : EditorState :=
  { selectedObjectName := some "Hero",
    uiSettings := sampleUi,
    history := { past := [], present := [instNeg], future := [] },
    instancesSelection := [],
    instances := { instances := [instNeg], nextId := 1 } }

/-! ## Claim theorems -/

/-- C8: every UiSettings mutation of the component — `toggleWindowMask`,
`toggleGrid`, and `setUiSettings` with any partial settings object —
leaves the history state (past, present and future) unchanged:
ui-settings changes are never historized. -/
theorem uiSettings_mutations_preserve_history (st : EditorState) (p : UiSettingsPatch) :
    (toggleWindowMask st).history = st.history ∧
    (toggleGrid st).history = st.history ∧
    (setUiSettings st p).history = st.history :=
  ⟨rfl, rfl, rfl⟩

/-- C10: after `toggleGrid`, both `grid` and `snap` equal the negation of
the previous `grid` value, whatever `snap` was before. -/
theorem toggleGrid_sets_grid_and_snap (st : EditorState) :
    (toggleGrid st).uiSettings.grid = !st.uiSettings.grid ∧
    (toggleGrid st).uiSettings.snap = !st.uiSettings.grid :=
  ⟨rfl, rfl⟩

/-- C9: the effective object name used by `_onAddInstance` is the
explicit `objectName` argument when it is non-empty, and otherwise falls
back to the currently selected object-to-place name (with the JavaScript
null modelled as an absent option, read as the empty string). -/
theorem effectiveObjectName_precedence (objectName : String) (sel : Option String) :
    (objectName ≠ "" → effectiveObjectName objectName sel = objectName) ∧
    (objectName = "" → effectiveObjectName objectName sel = sel.getD "") := by
  refine ⟨fun h => ?_, fun h => ?_⟩ <;> simp [effectiveObjectName, h]

/-- Witness for C9 at concrete inputs: an explicit name takes precedence
over the selected one, and the empty name falls back to it. -/
theorem effectiveObjectName_precedence_witness :
    effectiveObjectName "Hero" (some "Tree") = "Hero" ∧
    effectiveObjectName "" (some "Tree") = "Tree" :=
  ⟨(effectiveObjectName_precedence "Hero" (some "Tree")).1 (by decide),
   (effectiveObjectName_precedence "" (some "Tree")).2 rfl⟩

/-- C7 (code bug): `_onInstancesModified` makes no history commit — it
only forces a re-render, so the whole editing-session state, and in
particular the history, is unchanged; the commit the spec promises is
left as a commented-out question in the source. -/
theorem onInstancesModified_no_commit (st : EditorState) :
    onInstancesModified st = st ∧ (onInstancesModified st).history = st.history :=
  ⟨rfl, rfl⟩

/-- C6: when the effective object name is empty (no explicit name and no
object chosen), `_onAddInstance` is a complete no-op: the state —
scene graph, history, selection — is returned unchanged, and the
operation is total (no error). -/
theorem onAddInstance_empty_name_noop (st : EditorState) (x y : Int) (objectName : String)
    (h : effectiveObjectName objectName st.selectedObjectName = "") :
    onAddInstance st x y objectName = st := by
  simp [onAddInstance, h]

/-- Witness for C6: adding with an empty name and no selected object on a
concrete session changes nothing. -/
theorem onAddInstance_empty_name_noop_witness :
    effectiveObjectName "" stSel.selectedObjectName = "" ∧
    onAddInstance stSel 3 4 "" = stSel :=
  ⟨rfl, onAddInstance_empty_name_noop stSel 3 4 "" rfl⟩

/-- C1 counterexample: on a concrete session with instance A selected,
both undo and redo are enabled and actually fire, yet afterwards the
selected-instances sequence is still non-empty — the handlers never
clear the selection model. -/
theorem undo_redo_clear_selection_refuted :
    canUndo stSel.history = true ∧ canRedo stSel.history = true ∧
    (editorUndo stSel).instancesSelection ≠ [] ∧
    (editorRedo stSel).instancesSelection ≠ [] := by
  decide

/-- C1 amended: after the `undo` or `redo` handler, the history is the
one produced by delegating to the History module, but the selection
model is left untouched: the selected-instances sequence is exactly what
it was before the operation (it is not cleared). -/
theorem undo_redo_leave_selection_unchanged (st : EditorState) :
    (editorUndo st).instancesSelection = st.instancesSelection ∧
    (editorRedo st).instancesSelection = st.instancesSelection ∧
    (editorUndo st).history = (historyUndo st.history st.instances).1 ∧
    (editorRedo st).history = (historyRedo st.history st.instances).1 :=
  ⟨rfl, rfl, rfl, rfl⟩

/-- C2 counterexample: on a concrete session with an empty selection,
`deleteSelection` still commits: the length of `history.past` changes
(from 0 to 1) — the handler has no emptiness check before
`saveToHistory`. -/
theorem deleteSelection_empty_noop_refuted :
    stEmptySel.instancesSelection = [] ∧
    (deleteSelection stEmptySel).history.past.length ≠ stEmptySel.history.past.length := by
  decide

/-- C2 amended: with an empty selection, `deleteSelection` leaves the
scene graph unchanged but is not a history no-op: it still commits, so
`history.past` grows by one entry (whenever past is below the cap) and
`history.future` is cleared. -/
theorem deleteSelection_empty_still_commits (st : EditorState)
    (hsel : st.instancesSelection = [])
    (hlen : st.history.past.length < maxHistoryDepth) :
    (deleteSelection st).instances = st.instances ∧
    (deleteSelection st).history.past.length = st.history.past.length + 1 ∧
    (deleteSelection st).history.future = [] := by
  refine ⟨by simp [deleteSelection, hsel], ?_, by simp [deleteSelection, saveToHistory]⟩
  simp only [deleteSelection, hsel, List.foldl_nil, saveToHistory]
  rw [if_neg (by simp; omega)]
  simp

/-- Witness for C2 amended: the concrete empty-selection session is below
the cap, its graph is untouched and its past grows from 0 to 1. -/
theorem deleteSelection_empty_still_commits_witness :
    stEmptySel.instancesSelection = [] ∧
    stEmptySel.history.past.length < maxHistoryDepth ∧
    ((deleteSelection stEmptySel).instances = stEmptySel.instances ∧
     (deleteSelection stEmptySel).history.past.length =
       stEmptySel.history.past.length + 1 ∧
     (deleteSelection stEmptySel).history.future = []) :=
  ⟨rfl, by decide, deleteSelection_empty_still_commits stEmptySel rfl (by decide)⟩

/-- C3 counterexample: on a concrete session with instances A and B on
layer "L1", closing the layer-remove dialog with the DeleteInstances
disposition removes both instances but pushes no history commit: the
length of `history.past` stays 0 instead of growing by one; the
MoveToLayer disposition likewise pushes none. -/
theorem removeLayer_one_commit_refuted :
    (onCloseLayerRemoveDialog stLayer "L1" true none).instances.instances = [] ∧
    (onCloseLayerRemoveDialog stLayer "L1" true none).history.past.length ≠
      stLayer.history.past.length + 1 ∧
    (onCloseLayerRemoveDialog stLayer "L1" true (some "L2")).history.past.length ≠
      stLayer.history.past.length + 1 := by
  decide

/-- C3 amended: layer removal (either disposition, and also the
cancelled dialog) performs the batch mutation on the scene graph but
makes no history commit at all: the history state is unchanged — zero
commits for the batch, not one. -/
theorem removeLayer_no_history_commit (st : EditorState) (layerName : String)
    (doRemove : Bool) (newLayer : Option String) :
    (onCloseLayerRemoveDialog st layerName doRemove newLayer).history = st.history := by
  cases doRemove <;> cases newLayer <;> rfl

/-- Anything left in the container after folding `removeInstance` over a
selection was already in the container. -/
theorem mem_of_mem_foldl_removeInstance (sel : List Instance) (c : InstancesContainer)
    (j : Instance) (h : j ∈ (sel.foldl (fun c inst => removeInstance c inst) c).instances) :
    j ∈ c.instances := by
  induction sel generalizing c with
  | nil => exact h
  | cons a t ih =>
    have h2 := ih (removeInstance c a) h
    exact (List.mem_filter.mp h2).1

/-- After folding `removeInstance` over a selection, no instance with the
identity of a selected instance remains in the container. -/
theorem foldl_removeInstance_not_mem (sel : List Instance) (c : InstancesContainer)
    (i : Instance) (hi : i ∈ sel) (j : Instance)
    (hj : j ∈ (sel.foldl (fun c inst => removeInstance c inst) c).instances) :
    j.id ≠ i.id := by
  induction sel generalizing c with
  | nil => exact absurd hi (List.not_mem_nil i)
  | cons a t ih =>
    rcases List.mem_cons.mp hi with h | h
    · subst h
      have h2 := mem_of_mem_foldl_removeInstance t (removeInstance c i) j hj
      have h3 := (List.mem_filter.mp h2).2
      simpa using h3
    · exact ih (removeInstance c a) h hj

/-- C5: on a non-empty selection, `deleteSelection` removes every
selected instance from the scene graph and clears the selection model in
the same step: afterwards the selected-instances sequence is empty and
no instance with a deleted identity remains in the container. -/
theorem deleteSelection_clears_and_removes (st : EditorState)
    (_h : st.instancesSelection ≠ []) :
    (deleteSelection st).instancesSelection = [] ∧
    ∀ i ∈ st.instancesSelection, ∀ j ∈ (deleteSelection st).instances.instances,
      j.id ≠ i.id := by
  refine ⟨rfl, fun i hi j hj => ?_⟩
  exact foldl_removeInstance_not_mem st.instancesSelection st.instances i hi j hj

/-- Witness for C5: deleting the selection [A] from the session holding
A and B empties the selection and leaves no instance with A's
identity. -/
theorem deleteSelection_clears_and_removes_witness :
    stLayer.instancesSelection ≠ [] ∧
    ((deleteSelection stLayer).instancesSelection = [] ∧
     ∀ i ∈ stLayer.instancesSelection, ∀ j ∈ (deleteSelection stLayer).instances.instances,
       j.id ≠ i.id) :=
  ⟨by decide, deleteSelection_clears_and_removes stLayer (by decide)⟩

/-- Replacing the entry with a given identity is the identity map on a
list that holds no instance with that identity. -/
theorem map_if_id_of_ne (l : List Instance) (n : Nat) (inst : Instance)
    (h : ∀ j ∈ l, j.id ≠ n) :
    l.map (fun j => if j.id = n then inst else j) = l := by
  induction l with
  | nil => rfl
  | cons a t ih =>
    rw [List.map_cons, if_neg (h a (List.mem_cons_self a t)),
      ih fun j hj => h j (List.mem_cons_of_mem a hj)]

/-- The starting value is a lower bound of the z-order fold. -/
theorem le_foldl_max (l : List Instance) (a : Int) :
    a ≤ l.foldl (fun acc j => max acc j.zOrder) a := by
  induction l generalizing a with
  | nil => exact le_refl a
  | cons b t ih => exact le_trans (le_max_left a b.zOrder) (ih (max a b.zOrder))

/-- Every member's z-order is bounded by the z-order fold. -/
theorem zOrder_le_foldl_max (l : List Instance) (a : Int) (i : Instance) (hi : i ∈ l) :
    i.zOrder ≤ l.foldl (fun acc j => max acc j.zOrder) a := by
  induction l generalizing a with
  | nil => exact absurd hi (List.not_mem_nil i)
  | cons b t ih =>
    rcases List.mem_cons.mp hi with h | h
    · subst h
      exact le_trans (le_max_right a i.zOrder) (le_foldl_max t (max a i.zOrder))
    · exact ih (max a b.zOrder) h

/-- A search that fails on every element of a first list continues into
the second. -/
theorem find?_append_of_none (l l2 : List Instance) (p : Instance → Bool)
    (h : ∀ j ∈ l, p j = false) :
    (l ++ l2).find? p = l2.find? p := by
  induction l with
  | nil => rfl
  | cons a t ih =>
    rw [List.cons_append, List.find?_cons_of_neg _ (by simp [h a (List.mem_cons_self a t)])]
    exact ih fun j hj => h j (List.mem_cons_of_mem a hj)

/-- Content of the scene graph after a successful `_onAddInstance` on a
well-formed container (no pre-existing instance carries the fresh
identity): the pre-existing instances, unchanged and in order, followed
by the new instance, whose z-order is the container's highest z-order
fold plus one. -/
theorem onAddInstance_instances_eq (st : EditorState) (x y : Int) (objectName : String)
    (hname : effectiveObjectName objectName st.selectedObjectName ≠ "")
    (hwf : ∀ i ∈ st.instances.instances, i.id ≠ st.instances.nextId) :
    (onAddInstance st x y objectName).instances.instances =
      st.instances.instances ++
        [{ id := st.instances.nextId,
           objectName := effectiveObjectName objectName st.selectedObjectName,
           x := x, y := y,
           zOrder := getHighestZOrder st.instances + 1,
           layerName := "" }] := by
  have h0 : (0 : Int) ≤ st.instances.instances.foldl (fun acc j => max acc j.zOrder) 0 :=
    le_foldl_max st.instances.instances 0
  simp only [onAddInstance, if_neg hname, insertNewInitialInstance, setInstance,
    getHighestZOrder]
  rw [List.map_append,
    map_if_id_of_ne st.instances.instances st.instances.nextId _ hwf]
  simp only [List.map_cons, List.map_nil, if_true]
  rw [List.map_append,
    map_if_id_of_ne st.instances.instances st.instances.nextId _ hwf]
  simp only [List.map_cons, List.map_nil, if_true]
  simp only [List.foldl_append, List.foldl_cons, List.foldl_nil]
  rw [max_eq_left h0]

/-- C4 counterexample: on a session whose only pre-existing instance has
zOrder -2, `_onAddInstance` gives the new instance zOrder 1, not
(-2) + 1 = -1 as the claim's "maximum pre-existing zOrder plus 1" would
demand — the z-order scan runs after insertion, so it also visits the
new instance, whose default zOrder 0 dominates every negative value. -/
theorem addInstance_zorder_eq_pre_max_refuted :
    stNeg.instances.instances.map Instance.zOrder = [-2] ∧
    (findInstance (onAddInstance stNeg 5 7 "Hero").instances
        stNeg.instances.nextId).map Instance.zOrder = some 1 ∧
    (1 : Int) ≠ -2 + 1 := by
  decide

/-- C4 amended: after a successful `_onAddInstance` on a well-formed
container, the new instance's zOrder equals the container's highest
z-order fold (that is, the maximum of 0 and every pre-existing zOrder)
plus 1; hence it is strictly greater than every pre-existing instance's
zOrder, regardless of layer. -/
theorem addInstance_zorder_above_all (st : EditorState) (x y : Int) (objectName : String)
    (hname : effectiveObjectName objectName st.selectedObjectName ≠ "")
    (hwf : ∀ i ∈ st.instances.instances, i.id ≠ st.instances.nextId) :
    ∃ inst,
      findInstance (onAddInstance st x y objectName).instances st.instances.nextId =
        some inst ∧
      inst.zOrder = getHighestZOrder st.instances + 1 ∧
      ∀ i ∈ st.instances.instances, i.zOrder < inst.zOrder := by
  refine ⟨{ id := st.instances.nextId,
            objectName := effectiveObjectName objectName st.selectedObjectName,
            x := x, y := y,
            zOrder := getHighestZOrder st.instances + 1,
            layerName := "" }, ?_, rfl, ?_⟩
  · unfold findInstance
    rw [onAddInstance_instances_eq st x y objectName hname hwf,
      find?_append_of_none _ _ _ (fun j hj => by simpa using hwf j hj)]
    simp [List.find?]
  · intro i hi
    exact Int.lt_add_one_iff.mpr (zOrder_le_foldl_max st.instances.instances 0 i hi)

/-- Witness for C4 amended: on the concrete negative-z session the new
instance is found under the fresh identity with zOrder
max(0, -2) + 1 = 1, strictly above the pre-existing instance. -/
theorem addInstance_zorder_above_all_witness :
    effectiveObjectName "Hero" stNeg.selectedObjectName ≠ "" ∧
    (∀ i ∈ stNeg.instances.instances, i.id ≠ stNeg.instances.nextId) ∧
    (∃ inst,
      findInstance (onAddInstance stNeg 5 7 "Hero").instances stNeg.instances.nextId =
        some inst ∧
      inst.zOrder = getHighestZOrder stNeg.instances + 1 ∧
      ∀ i ∈ stNeg.instances.instances, i.zOrder < inst.zOrder) :=
  ⟨by decide, by decide,
   addInstance_zorder_above_all stNeg 5 7 "Hero" (by decide) (by decide)⟩
